import Mathlib

/-
  Verification development for the SpaceAce repository
  (src/SpaceAce/weather.py, astros.py, iss_locator.py).

  Shallow embedding conventions:
  * Python values relevant to the program are `PyVal` (strings, ints,
    dicts as association lists, lists, None).
  * Python's stdlib `json.loads` is external to the repository; it is
    modelled as an abstract parameter `jl : String -> Option PyVal`
    (`Option.none` models a raised `json.JSONDecodeError`).
  * The network is an oracle `net : Nat -> Option PyVal`: `net i` is the
    outcome of the i-th HTTP attempt of a single fetch call
    (`Option.none` = transport error or non-2xx status, i.e. a raised
    `requests.exceptions.RequestException`; `some p` = a 2xx response
    whose body decodes to `p`).
  * Functions that issue HTTP requests also return the list of requests
    they issued, so "zero network calls" is `requests = []`.
  * A Python function that may raise returns `PyResult`:
    `ok v` is a normal return, `exn k` is an uncaught `KeyError(k)`.
  * `fetch_data` mutates its `params` dict in place; the embedding
    returns the post-call contents of that dict as `finalParams`.
-/

namespace SpaceAce

/-- A value of the dynamically typed language, restricted to the shapes
the program manipulates: strings, integers, dictionaries (association
lists of string keys), lists, and None. -/
inductive PyVal where
| str (s : String)
| int (n : Int)
| dict (entries : List (String × PyVal))
| list (elems : List PyVal)
| none

mutual

/-- Python `repr` of a value (used by f-string interpolation of
containers); strings are single-quoted. -/
def pyRepr : PyVal → String
| .str s => "\x27" ++ s ++ "\x27"
| .int n => toString n
| .none => "None"
| .dict es => "\x7b" ++ String.intercalate ", " (pyReprEntries es) ++ "\x7d"
| .list xs => "[" ++ String.intercalate ", " (pyReprElems xs) ++ "]"

/-- `repr` of the entries of a dict. -/
def pyReprEntries : List (String × PyVal) → List String
| [] => []
| (k, v) :: rest => ("\x27" ++ k ++ "\x27: " ++ pyRepr v) :: pyReprEntries rest

/-- `repr` of the elements of a list. -/
def pyReprElems : List PyVal → List String
| [] => []
| v :: rest => pyRepr v :: pyReprElems rest

end

/-- Python `str()` of a value, as produced by f-string interpolation:
a string interpolates as itself, other values as their `repr`. -/
def pyStr : PyVal → String
| .str s => s
| v => pyRepr v

/-- Python dict membership (`k in d`) on the association-list model. -/
def dictContainsL (es : List (String × PyVal)) (k : String) : Bool :=
  es.any (fun p => p.1 == k)

/-- Python dict lookup `d[k]` that may fail (`Option.none` models a
raised `KeyError`). -/
def dictGetL (es : List (String × PyVal)) (k : String) : Option PyVal :=
  (es.find? (fun p => p.1 == k)).map (fun p => p.2)

/-- Python `d.get(k, default)`. -/
def dictGetDL (es : List (String × PyVal)) (k : String) (default : PyVal) : PyVal :=
  match dictGetL es k with
  | some v => v
  | Option.none => default

/-- Python in-place assignment `d[k] = v`: replaces the value at an
existing key, otherwise appends the new key at the end (insertion
order). -/
def dictSetL (es : List (String × PyVal)) (k : String) (v : PyVal) : List (String × PyVal) :=
  if dictContainsL es k then es.map (fun p => if p.1 == k then (k, v) else p)
  else es ++ [(k, v)]

/-- `k in v` for an arbitrary value; only the dict case is reachable in
the program (tool functions test membership after `parse_input`, which
always yields a dict). -/
def pyContains (v : PyVal) (k : String) : Bool :=
  match v with
  | .dict es => dictContainsL es k
  | _ => false

/-- `v[k]` for an arbitrary value; only the dict case is reachable. -/
def pyGet (v : PyVal) (k : String) : Option PyVal :=
  match v with
  | .dict es => dictGetL es k
  | _ => Option.none

/-- `v.get(k, default)` for an arbitrary value; only the dict case is
reachable. -/
def pyGetD (v : PyVal) (k : String) (default : PyVal) : PyVal :=
  match v with
  | .dict es => dictGetDL es k default
  | _ => default

/-- One HTTP GET request as observed on the wire: the URL and the query
parameters passed to `requests.get`. -/
structure Request where
  url : String
  params : List (String × PyVal)

/-- `BASE_API_URL` from weather.py line 22. -/
def BASE_API_URL : String := "https://api.weatherapi.com/v1"

/-- The retry loop of the fetchers (weather.py lines 40-48, astros.py
lines 33-40, iss_locator.py lines 33-40): starting at attempt index
`i` with `n` attempts remaining, issue the request; a 2xx response
(`net i = some payload`) returns the decoded payload immediately, a
failure retries. Returns the final outcome and the list of requests
issued. -/
def attemptLoop (net : Nat → Option PyVal) (req : Request) : Nat → Nat → Option PyVal × List Request
| _, 0 => (Option.none, [])
| i, n + 1 =>
  match net i with
  | some payload => (some payload, [req])
  | Option.none =>
    let rest := attemptLoop net req (i + 1) n
    (rest.1, req :: rest.2)

/-- Outcome of a `WeatherAPI` fetch: the returned value, the requests
issued, and the contents of the caller-supplied `params` dict after
the call (the function mutates it in place). -/
structure FetchOut where
  result : PyVal
  requests : List Request
  finalParams : List (String × PyVal)

namespace WeatherAPI

/-- `WeatherAPI.fetch_data` (weather.py lines 32-50): builds the URL
from `BASE_API_URL` and the endpoint, inserts the API key into the
caller's params dict in place, then retries up to 3 times; if every
attempt fails it returns the terminal error dict. `api_key` models
`self.api_key`; `net` models the remote endpoint's behavior. -/
def fetch_data (api_key : String) (net : Nat → Option PyVal) (endpoint : String)
    (params : List (String × PyVal)) : FetchOut :=
  let url := BASE_API_URL ++ "/" ++ endpoint ++ ".json"
  let params2 := dictSetL params "key" (.str api_key)
  match attemptLoop net ⟨url, params2⟩ 0 3 with
  | (some payload, reqs) => ⟨payload, reqs, params2⟩
  | (Option.none, reqs) =>
    ⟨.dict [("error", .str ("Failed to fetch data from " ++ endpoint ++ " after multiple attempts."))],
     reqs, params2⟩

/-- `WeatherAPI.get_weather` (weather.py lines 53-54). -/
def get_weather (api_key : String) (net : Nat → Option PyVal) (latitude longitude : PyVal) : FetchOut :=
  fetch_data api_key net "current" [("q", .str (pyStr latitude ++ "," ++ pyStr longitude))]

/-- `WeatherAPI.get_forecast` (weather.py lines 57-58); `days`
defaults to 3 at the call sites via `input_data.get`. -/
def get_forecast (api_key : String) (net : Nat → Option PyVal) (latitude longitude days : PyVal) : FetchOut :=
  fetch_data api_key net "forecast" [("q", .str (pyStr latitude ++ "," ++ pyStr longitude)), ("days", days)]

/-- `WeatherAPI.get_history` (weather.py lines 61-62). -/
def get_history (api_key : String) (net : Nat → Option PyVal) (latitude longitude date : PyVal) : FetchOut :=
  fetch_data api_key net "history" [("q", .str (pyStr latitude ++ "," ++ pyStr longitude)), ("dt", date)]

/-- `WeatherAPI.get_marine` (weather.py lines 65-66). -/
def get_marine (api_key : String) (net : Nat → Option PyVal) (latitude longitude : PyVal) : FetchOut :=
  fetch_data api_key net "marine" [("q", .str (pyStr latitude ++ "," ++ pyStr longitude))]

/-- `WeatherAPI.get_timezone` (weather.py lines 69-70). -/
def get_timezone (api_key : String) (net : Nat → Option PyVal) (latitude longitude : PyVal) : FetchOut :=
  fetch_data api_key net "timezone" [("q", .str (pyStr latitude ++ "," ++ pyStr longitude))]

/-- `WeatherAPI.get_astronomy` (weather.py lines 73-74). -/
def get_astronomy (api_key : String) (net : Nat → Option PyVal) (latitude longitude date : PyVal) : FetchOut :=
  fetch_data api_key net "astronomy" [("q", .str (pyStr latitude ++ "," ++ pyStr longitude)), ("dt", date)]

end WeatherAPI

/-- Whether a value is a dict (`isinstance(x, dict)`). -/
def isDict : PyVal → Bool
| .dict _ => true
| _ => false

/-- `parse_input` (weather.py lines 77-96), parameterized by the
stdlib JSON decoder `jl` (external to the repository; `Option.none`
models a raised `json.JSONDecodeError`): a string input is decoded,
a decode failure yields the `Invalid JSON format.` error dict, a
non-dict value yields the `Invalid input format.` error dict, and a
dict is returned unchanged. -/
def parse_input (jl : String → Option PyVal) (input_data : PyVal) : PyVal :=
  match input_data with
  | .str s =>
    match jl s with
    | Option.none => .dict [("error", .str "Invalid JSON format.")]
    | some v =>
      if isDict v then v
      else .dict [("error", .str "Invalid input format. Expected JSON object.")]
  | v =>
    if isDict v then v
    else .dict [("error", .str "Invalid input format. Expected JSON object.")]

/-- Result of calling a Python function that may raise: a normal
return, or an uncaught `KeyError` naming the missing dict key. -/
inductive PyResult where
| ok (v : PyVal)
| exn (key : String)

/-- Outcome of a tool function: its return value (or uncaught
exception) and the HTTP requests issued during the call. -/
structure ToolOut where
  result : PyResult
  requests : List Request

/-- `get_current_weather` (weather.py lines 99-108): normalizes the
input, returns any error dict as-is, then reads
`input_data["latitude"]` and `input_data["longitude"]` (raising
`KeyError` when absent) and fetches the current weather. -/
def get_current_weather (jl : String → Option PyVal) (api_key : String)
    (net : Nat → Option PyVal) (input_data : PyVal) : ToolOut :=
  let d := parse_input jl input_data
  if pyContains d "error" then ⟨.ok d, []⟩
  else
    match pyGet d "latitude" with
    | Option.none => ⟨.exn "latitude", []⟩
    | some lat =>
      match pyGet d "longitude" with
      | Option.none => ⟨.exn "longitude", []⟩
      | some lon =>
        let out := WeatherAPI.get_weather api_key net lat lon
        ⟨.ok out.result, out.requests⟩

/-- `get_forecast_weather` (weather.py lines 111-121): like
`get_current_weather` but passes `input_data.get("days", 3)`. -/
def get_forecast_weather (jl : String → Option PyVal) (api_key : String)
    (net : Nat → Option PyVal) (input_data : PyVal) : ToolOut :=
  let d := parse_input jl input_data
  if pyContains d "error" then ⟨.ok d, []⟩
  else
    match pyGet d "latitude" with
    | Option.none => ⟨.exn "latitude", []⟩
    | some lat =>
      match pyGet d "longitude" with
      | Option.none => ⟨.exn "longitude", []⟩
      | some lon =>
        let out := WeatherAPI.get_forecast api_key net lat lon (pyGetD d "days" (.int 3))
        ⟨.ok out.result, out.requests⟩

/-- `get_historical_weather` (weather.py lines 124-137): after the
error-dict check it rejects inputs without a `date` key with the
`Missing date field` error dict, then reads latitude, longitude and
date. -/
def get_historical_weather (jl : String → Option PyVal) (api_key : String)
    (net : Nat → Option PyVal) (input_data : PyVal) : ToolOut :=
  let d := parse_input jl input_data
  if pyContains d "error" then ⟨.ok d, []⟩
  else if ¬ pyContains d "date" then
    ⟨.ok (.dict [("error", .str "Missing \x27date\x27 field.")]), []⟩
  else
    match pyGet d "latitude" with
    | Option.none => ⟨.exn "latitude", []⟩
    | some lat =>
      match pyGet d "longitude" with
      | Option.none => ⟨.exn "longitude", []⟩
      | some lon =>
        match pyGet d "date" with
        | Option.none => ⟨.exn "date", []⟩
        | some date =>
          let out := WeatherAPI.get_history api_key net lat lon date
          ⟨.ok out.result, out.requests⟩

/-- `get_marine_weather` (weather.py lines 140-150). -/
def get_marine_weather (jl : String → Option PyVal) (api_key : String)
    (net : Nat → Option PyVal) (input_data : PyVal) : ToolOut :=
  let d := parse_input jl input_data
  if pyContains d "error" then ⟨.ok d, []⟩
  else
    match pyGet d "latitude" with
    | Option.none => ⟨.exn "latitude", []⟩
    | some lat =>
      match pyGet d "longitude" with
      | Option.none => ⟨.exn "longitude", []⟩
      | some lon =>
        let out := WeatherAPI.get_marine api_key net lat lon
        ⟨.ok out.result, out.requests⟩

/-- `get_timezone_info` (weather.py lines 153-163). -/
def get_timezone_info (jl : String → Option PyVal) (api_key : String)
    (net : Nat → Option PyVal) (input_data : PyVal) : ToolOut :=
  let d := parse_input jl input_data
  if pyContains d "error" then ⟨.ok d, []⟩
  else
    match pyGet d "latitude" with
    | Option.none => ⟨.exn "latitude", []⟩
    | some lat =>
      match pyGet d "longitude" with
      | Option.none => ⟨.exn "longitude", []⟩
      | some lon =>
        let out := WeatherAPI.get_timezone api_key net lat lon
        ⟨.ok out.result, out.requests⟩

/-- `get_astronomy_info` (weather.py lines 166-179): same shape as
`get_historical_weather`, fetching the astronomy endpoint. -/
def get_astronomy_info (jl : String → Option PyVal) (api_key : String)
    (net : Nat → Option PyVal) (input_data : PyVal) : ToolOut :=
  let d := parse_input jl input_data
  if pyContains d "error" then ⟨.ok d, []⟩
  else if ¬ pyContains d "date" then
    ⟨.ok (.dict [("error", .str "Missing \x27date\x27 field.")]), []⟩
  else
    match pyGet d "latitude" with
    | Option.none => ⟨.exn "latitude", []⟩
    | some lat =>
      match pyGet d "longitude" with
      | Option.none => ⟨.exn "longitude", []⟩
      | some lon =>
        match pyGet d "date" with
        | Option.none => ⟨.exn "date", []⟩
        | some date =>
          let out := WeatherAPI.get_astronomy api_key net lat lon date
          ⟨.ok out.result, out.requests⟩

/-- `ASTROS_API_URL` from astros.py line 21. -/
def ASTROS_API_URL : String := "http://api.open-notify.org/astros.json"

/-- `ISS_API_URL` from iss_locator.py line 21. -/
def ISS_API_URL : String := "http://api.open-notify.org/iss-now.json"

namespace Astros

/-- `Astros.get_astros` (astros.py lines 28-41): up to 3 attempts
against the fixed astros URL with no query parameters; exhaustion
returns the terminal error dict. -/
def get_astros (net : Nat → Option PyVal) : PyVal × List Request :=
  match attemptLoop net ⟨ASTROS_API_URL, []⟩ 0 3 with
  | (some payload, reqs) => (payload, reqs)
  | (Option.none, reqs) =>
    (.dict [("error", .str "Failed to fetch Astros after multiple attempts.")], reqs)

end Astros

namespace ISSLocator

/-- `ISSLocator.get_location` (iss_locator.py lines 28-41). -/
def get_location (net : Nat → Option PyVal) : PyVal × List Request :=
  match attemptLoop net ⟨ISS_API_URL, []⟩ 0 3 with
  | (some payload, reqs) => (payload, reqs)
  | (Option.none, reqs) =>
    (.dict [("error", .str "Failed to fetch ISS location after multiple attempts.")], reqs)

end ISSLocator

/-- The names of the registered weather tools, in the order of the
`tools` list (weather.py lines 182-226). -/
def toolNames : List String :=
  ["fetch_weather", "fetch_forecast", "fetch_history", "fetch_marine",
   "fetch_timezone", "fetch_astronomy"]

/-- Result of a dispatch: the invoked tool's outcome, or the
unknown-capability failure. -/
inductive InvokeOut where
| result (out : ToolOut)
| unknownCapability

/-- Modelled from the spec: the Capability Dispatcher's
`invoke(capabilityName, rawInput)`. The per-capability tool functions
and the registered (name, function) pairs are in weather.py lines
182-226, but the lookup of a capability name among the registered
tools is performed by the external agent framework and is not under
src/; per the spec, an absent name returns
`Failure(kind=UnknownCapability)` without touching the Normalizer or
the Fetcher, and a present name calls that tool's function on the raw
input. -/
def invoke (jl : String → Option PyVal) (api_key : String)
    (net : Nat → Option PyVal) (name : String) (raw : PyVal) : InvokeOut :=
  if name = "fetch_weather" then .result (get_current_weather jl api_key net raw)
  else if name = "fetch_forecast" then .result (get_forecast_weather jl api_key net raw)
  else if name = "fetch_history" then .result (get_historical_weather jl api_key net raw)
  else if name = "fetch_marine" then .result (get_marine_weather jl api_key net raw)
  else if name = "fetch_timezone" then .result (get_timezone_info jl api_key net raw)
  else if name = "fetch_astronomy" then .result (get_astronomy_info jl api_key net raw)
  else .unknownCapability

/-! Helper lemmas about the retry loop and the dict model. -/

/-- Every request issued by the retry loop is the one request it was
given. -/
lemma attemptLoop_mem (net : Nat → Option PyVal) (req : Request) :
    ∀ (n i : Nat) (r : Request), r ∈ (attemptLoop net req i n).2 → r = req := by
  intro n
  induction n with
  | zero => intro i r hr; simp [attemptLoop] at hr
  | succ n ih =>
    intro i r hr
    simp only [attemptLoop] at hr
    rcases h : net i with _ | p <;> rw [h] at hr <;> simp at hr
    · rcases hr with hr | hr
      · exact hr
      · exact ih (i + 1) r hr
    · exact hr

/-- The retry loop with a positive budget issues at least one
request. -/
lemma attemptLoop_ne_nil (net : Nat → Option PyVal) (req : Request) (i n : Nat) :
    (attemptLoop net req i (n + 1)).2 ≠ [] := by
  simp only [attemptLoop]
  rcases h : net i with _ | p <;> simp

/-- After `fetch_data`, the caller's params dict holds the API key
entry inserted by the function. -/
lemma fetch_data_finalParams (api_key : String) (net : Nat → Option PyVal)
    (endpoint : String) (params : List (String × PyVal)) :
    (WeatherAPI.fetch_data api_key net endpoint params).finalParams =
      dictSetL params "key" (.str api_key) := by
  simp only [WeatherAPI.fetch_data]
  split <;> rfl

/-- Every request issued by `fetch_data` targets the endpoint URL and
carries the key-augmented params. -/
lemma fetch_data_requests (api_key : String) (net : Nat → Option PyVal)
    (endpoint : String) (params : List (String × PyVal)) :
    ∀ r ∈ (WeatherAPI.fetch_data api_key net endpoint params).requests,
      r = ⟨BASE_API_URL ++ "/" ++ endpoint ++ ".json", dictSetL params "key" (.str api_key)⟩ := by
  intro r hr
  revert hr
  simp only [WeatherAPI.fetch_data]
  split <;> rename_i reqs heq <;> intro hr <;>
    exact attemptLoop_mem net _ 3 0 r (by rw [heq]; exact hr)

/-- `fetch_data` always issues at least one request. -/
lemma fetch_data_requests_ne_nil (api_key : String) (net : Nat → Option PyVal)
    (endpoint : String) (params : List (String × PyVal)) :
    (WeatherAPI.fetch_data api_key net endpoint params).requests ≠ [] := by
  simp only [WeatherAPI.fetch_data]
  split <;> rename_i reqs heq <;>
    exact fun hnil => attemptLoop_ne_nil net _ 0 2 (by rw [heq]; exact hnil)

/-- Looking up the key just set returns the value just set. -/
lemma dictGetL_set_self (es : List (String × PyVal)) (k : String) (v : PyVal) :
    dictGetL (dictSetL es k v) k = some v := by
  unfold dictSetL
  split
  · rename_i h
    induction es with
    | nil => simp [dictContainsL] at h
    | cons a es ih =>
      rcases hk : (a.1 == k) with _ | _
      · simp only [dictContainsL, List.any_cons, hk, Bool.false_or] at h
        simpa [dictGetL, List.find?, hk] using ih h
      · simp [dictGetL, List.find?, hk]
  · rename_i h
    rw [Bool.not_eq_true] at h
    induction es with
    | nil => simp [dictGetL, List.find?]
    | cons a es ih =>
      simp only [dictContainsL, List.any_cons, Bool.or_eq_false_iff] at h
      simpa [dictGetL, List.find?, h.1] using ih (by simp [dictContainsL, h.2])

/-- Setting an absent key appends it, so the dict changes. -/
lemma dictSetL_absent_ne (es : List (String × PyVal)) (k : String) (v : PyVal)
    (h : dictContainsL es k = false) : dictSetL es k v ≠ es := by
  unfold dictSetL
  rw [if_neg (by simp [h])]
  intro heq
  have := congrArg List.length heq
  simp at this

/-- A key reported present by `pyContains` has a value under
`pyGet`. -/
lemma pyContains_pyGet (d : PyVal) (k : String) (h : pyContains d k = true) :
    ∃ v, pyGet d k = some v := by
  cases d <;> simp [pyContains] at h
  rename_i es
  simp only [pyGet, dictGetL]
  rw [dictContainsL, List.any_eq_true] at h
  rcases h with ⟨p, hp, hpk⟩
  rcases hfind : List.find? (fun p => p.1 == k) es with _ | q
  · rw [List.find?_eq_none] at hfind
    exact absurd hpk (by simpa using hfind p hp)
  · exact ⟨q.2, by simp [hfind]⟩

/-- A key that has a value under `dictGetL` is reported present. -/
lemma dictGetL_some_contains (es : List (String × PyVal)) (k : String) (v : PyVal)
    (h : dictGetL es k = some v) : dictContainsL es k = true := by
  rw [dictContainsL, List.any_eq_true]
  rcases hf : List.find? (fun p => p.1 == k) es with _ | q
  · rw [dictGetL, hf] at h
    simp at h
  · exact ⟨q, List.mem_of_find?_eq_some hf, by simpa using List.find?_some hf⟩

/-- All requests of a `fetch_data` call, as a replicate of the single
request shape it issues; the call issues at least one. -/
lemma fetch_data_requests_replicate (api_key : String) (net : Nat → Option PyVal)
    (endpoint : String) (params : List (String × PyVal)) (req : Request)
    (h : req = ⟨BASE_API_URL ++ "/" ++ endpoint ++ ".json", dictSetL params "key" (.str api_key)⟩) :
    (WeatherAPI.fetch_data api_key net endpoint params).requests =
      List.replicate (WeatherAPI.fetch_data api_key net endpoint params).requests.length req ∧
    (WeatherAPI.fetch_data api_key net endpoint params).requests ≠ [] := by
  constructor
  · exact List.eq_replicate_length.mpr
      (fun r hr => by rw [fetch_data_requests api_key net endpoint params r hr, h])
  · exact fetch_data_requests_ne_nil api_key net endpoint params

/-- Reduction of `get_current_weather` on a well-formed dict input. -/
lemma get_current_weather_red (jl : String → Option PyVal) (api_key : String)
    (net : Nat → Option PyVal) (es : List (String × PyVal)) (lat lon : PyVal)
    (herr : dictContainsL es "error" = false)
    (hlat : dictGetL es "latitude" = some lat)
    (hlon : dictGetL es "longitude" = some lon) :
    get_current_weather jl api_key net (.dict es) =
      ⟨.ok (WeatherAPI.get_weather api_key net lat lon).result,
       (WeatherAPI.get_weather api_key net lat lon).requests⟩ := by
  simp [get_current_weather, parse_input, isDict, pyContains, pyGet, herr, hlat, hlon]

/-- Reduction of `get_forecast_weather` on a well-formed dict input. -/
lemma get_forecast_weather_red (jl : String → Option PyVal) (api_key : String)
    (net : Nat → Option PyVal) (es : List (String × PyVal)) (lat lon : PyVal)
    (herr : dictContainsL es "error" = false)
    (hlat : dictGetL es "latitude" = some lat)
    (hlon : dictGetL es "longitude" = some lon) :
    get_forecast_weather jl api_key net (.dict es) =
      ⟨.ok (WeatherAPI.get_forecast api_key net lat lon (dictGetDL es "days" (.int 3))).result,
       (WeatherAPI.get_forecast api_key net lat lon (dictGetDL es "days" (.int 3))).requests⟩ := by
  simp [get_forecast_weather, parse_input, isDict, pyContains, pyGet, pyGetD, herr, hlat, hlon]

/-- Reduction of `get_historical_weather` on a well-formed dict
input. -/
lemma get_historical_weather_red (jl : String → Option PyVal) (api_key : String)
    (net : Nat → Option PyVal) (es : List (String × PyVal)) (lat lon dt : PyVal)
    (herr : dictContainsL es "error" = false)
    (hlat : dictGetL es "latitude" = some lat)
    (hlon : dictGetL es "longitude" = some lon)
    (hdate : dictGetL es "date" = some dt) :
    get_historical_weather jl api_key net (.dict es) =
      ⟨.ok (WeatherAPI.get_history api_key net lat lon dt).result,
       (WeatherAPI.get_history api_key net lat lon dt).requests⟩ := by
  have hdc : dictContainsL es "date" = true := dictGetL_some_contains es "date" dt hdate
  simp [get_historical_weather, parse_input, isDict, pyContains, pyGet, herr, hlat, hlon, hdate, hdc]

/-- Reduction of `get_marine_weather` on a well-formed dict input. -/
lemma get_marine_weather_red (jl : String → Option PyVal) (api_key : String)
    (net : Nat → Option PyVal) (es : List (String × PyVal)) (lat lon : PyVal)
    (herr : dictContainsL es "error" = false)
    (hlat : dictGetL es "latitude" = some lat)
    (hlon : dictGetL es "longitude" = some lon) :
    get_marine_weather jl api_key net (.dict es) =
      ⟨.ok (WeatherAPI.get_marine api_key net lat lon).result,
       (WeatherAPI.get_marine api_key net lat lon).requests⟩ := by
  simp [get_marine_weather, parse_input, isDict, pyContains, pyGet, herr, hlat, hlon]

/-- Reduction of `get_timezone_info` on a well-formed dict input. -/
lemma get_timezone_info_red (jl : String → Option PyVal) (api_key : String)
    (net : Nat → Option PyVal) (es : List (String × PyVal)) (lat lon : PyVal)
    (herr : dictContainsL es "error" = false)
    (hlat : dictGetL es "latitude" = some lat)
    (hlon : dictGetL es "longitude" = some lon) :
    get_timezone_info jl api_key net (.dict es) =
      ⟨.ok (WeatherAPI.get_timezone api_key net lat lon).result,
       (WeatherAPI.get_timezone api_key net lat lon).requests⟩ := by
  simp [get_timezone_info, parse_input, isDict, pyContains, pyGet, herr, hlat, hlon]

/-- Reduction of `get_astronomy_info` on a well-formed dict input. -/
lemma get_astronomy_info_red (jl : String → Option PyVal) (api_key : String)
    (net : Nat → Option PyVal) (es : List (String × PyVal)) (lat lon dt : PyVal)
    (herr : dictContainsL es "error" = false)
    (hlat : dictGetL es "latitude" = some lat)
    (hlon : dictGetL es "longitude" = some lon)
    (hdate : dictGetL es "date" = some dt) :
    get_astronomy_info jl api_key net (.dict es) =
      ⟨.ok (WeatherAPI.get_astronomy api_key net lat lon dt).result,
       (WeatherAPI.get_astronomy api_key net lat lon dt).requests⟩ := by
  have hdc : dictContainsL es "date" = true := dictGetL_some_contains es "date" dt hdate
  simp [get_astronomy_info, parse_input, isDict, pyContains, pyGet, herr, hlat, hlon, hdate, hdc]

/-! Claims. -/

/-- Claim C3: for every fetch against an endpoint whose every attempt
fails, the fetch performs exactly `maxAttempts = 3` attempts, no more
and no fewer, and returns the terminal failure dict whose message
names the fetched resource, without raising; proved for
`WeatherAPI.fetch_data`, `Astros.get_astros` and
`ISSLocator.get_location`. -/
theorem C3_exhausted_retries (api_key endpoint : String) (net : Nat → Option PyVal)
    (params : List (String × PyVal))
    (h0 : net 0 = Option.none) (h1 : net 1 = Option.none) (h2 : net 2 = Option.none) :
    (WeatherAPI.fetch_data api_key net endpoint params).requests.length = 3 ∧
    (WeatherAPI.fetch_data api_key net endpoint params).result =
      .dict [("error", .str ("Failed to fetch data from " ++ endpoint ++ " after multiple attempts."))] ∧
    (Astros.get_astros net).2.length = 3 ∧
    (Astros.get_astros net).1 =
      .dict [("error", .str "Failed to fetch Astros after multiple attempts.")] ∧
    (ISSLocator.get_location net).2.length = 3 ∧
    (ISSLocator.get_location net).1 =
      .dict [("error", .str "Failed to fetch ISS location after multiple attempts.")] := by
  simp [WeatherAPI.fetch_data, Astros.get_astros, ISSLocator.get_location,
    attemptLoop, h0, h1, h2]

/-- Witness for C3 at the always-failing oracle. -/
theorem C3_witness :
    (WeatherAPI.fetch_data "k" (fun _ => Option.none) "current" []).requests.length = 3 ∧
    (WeatherAPI.fetch_data "k" (fun _ => Option.none) "current" []).result =
      .dict [("error", .str "Failed to fetch data from current after multiple attempts.")] ∧
    ((Astros.get_astros fun _ => Option.none)).2.length = 3 ∧
    ((Astros.get_astros fun _ => Option.none)).1 =
      .dict [("error", .str "Failed to fetch Astros after multiple attempts.")] ∧
    ((ISSLocator.get_location fun _ => Option.none)).2.length = 3 ∧
    ((ISSLocator.get_location fun _ => Option.none)).1 =
      .dict [("error", .str "Failed to fetch ISS location after multiple attempts.")] :=
  C3_exhausted_retries "k" "current" (fun _ => Option.none) [] rfl rfl rfl

/-- Claim C4: when the first 2xx response occurs after `f < 3`
failures (attempt `f + 1`), `fetch_data` returns the decoded body and
has issued exactly `f + 1` requests — no retries after the
success. -/
theorem C4_success_short_circuits (api_key endpoint : String) (net : Nat → Option PyVal)
    (params : List (String × PyVal)) (p : PyVal) (f : Nat) (hf : f < 3)
    (hfail : ∀ i, i < f → net i = Option.none) (hsucc : net f = some p) :
    (WeatherAPI.fetch_data api_key net endpoint params).result = p ∧
    (WeatherAPI.fetch_data api_key net endpoint params).requests.length = f + 1 := by
  interval_cases f
  · simp [WeatherAPI.fetch_data, attemptLoop, hsucc]
  · have h0 := hfail 0 (by norm_num)
    simp [WeatherAPI.fetch_data, attemptLoop, h0, hsucc]
  · have h0 := hfail 0 (by norm_num)
    have h1 := hfail 1 (by norm_num)
    simp [WeatherAPI.fetch_data, attemptLoop, h0, h1, hsucc]

/-- Witness for C4: two failures then a success on the third
attempt. -/
theorem C4_witness :
    (WeatherAPI.fetch_data "k"
      (fun i => if i = 2 then some (PyVal.str "payload") else Option.none) "current" []).result =
      PyVal.str "payload" ∧
    (WeatherAPI.fetch_data "k"
      (fun i => if i = 2 then some (PyVal.str "payload") else Option.none) "current" []).requests.length =
      2 + 1 :=
  C4_success_short_circuits "k" "current"
    (fun i => if i = 2 then some (PyVal.str "payload") else Option.none) []
    (PyVal.str "payload") 2 (by norm_num)
    (fun i hi => by interval_cases i <;> rfl) rfl

/-- Claim C9: `fetch_data` mutates the caller's params dict in place:
after the call the dict contains the API key under `key`, every
issued request carries the mutated dict, and when the caller's dict
lacked a `key` entry the dict is no longer equal to what was passed
in. -/
theorem C9_fetch_data_mutates_params (api_key endpoint : String)
    (net : Nat → Option PyVal) (params : List (String × PyVal)) :
    (WeatherAPI.fetch_data api_key net endpoint params).finalParams =
      dictSetL params "key" (.str api_key) ∧
    dictGetL (WeatherAPI.fetch_data api_key net endpoint params).finalParams "key" =
      some (.str api_key) ∧
    (∀ r ∈ (WeatherAPI.fetch_data api_key net endpoint params).requests,
      r.params = (WeatherAPI.fetch_data api_key net endpoint params).finalParams) ∧
    (dictContainsL params "key" = false →
      (WeatherAPI.fetch_data api_key net endpoint params).finalParams ≠ params) := by
  refine ⟨fetch_data_finalParams api_key net endpoint params, ?_, ?_, ?_⟩
  · rw [fetch_data_finalParams]
    exact dictGetL_set_self params "key" (.str api_key)
  · intro r hr
    rw [fetch_data_finalParams, fetch_data_requests api_key net endpoint params r hr]
  · intro h
    rw [fetch_data_finalParams]
    exact dictSetL_absent_ne params "key" (.str api_key) h

/-- Witness for C9 at a concrete params dict lacking `key`. -/
theorem C9_witness :
    dictContainsL [("q", PyVal.str "1,2")] "key" = false ∧
    (WeatherAPI.fetch_data "k" (fun _ => Option.none) "current"
      [("q", PyVal.str "1,2")]).finalParams ≠ [("q", PyVal.str "1,2")] ∧
    dictGetL (WeatherAPI.fetch_data "k" (fun _ => Option.none) "current"
      [("q", PyVal.str "1,2")]).finalParams "key" = some (PyVal.str "k") :=
  ⟨rfl,
   (C9_fetch_data_mutates_params "k" "current" (fun _ => Option.none)
     [("q", PyVal.str "1,2")]).2.2.2 rfl,
   (C9_fetch_data_mutates_params "k" "current" (fun _ => Option.none)
     [("q", PyVal.str "1,2")]).2.1⟩

/-- Claim C5: a textual raw input that does not decode as a structured
object makes every registered tool function return the
malformed-payload error dict and issue zero network calls. -/
theorem C5_malformed_payload (jl : String → Option PyVal) (api_key : String)
    (net : Nat → Option PyVal) (s : String) (h : jl s = Option.none) :
    get_current_weather jl api_key net (.str s) =
      ⟨.ok (.dict [("error", .str "Invalid JSON format.")]), []⟩ ∧
    get_forecast_weather jl api_key net (.str s) =
      ⟨.ok (.dict [("error", .str "Invalid JSON format.")]), []⟩ ∧
    get_historical_weather jl api_key net (.str s) =
      ⟨.ok (.dict [("error", .str "Invalid JSON format.")]), []⟩ ∧
    get_marine_weather jl api_key net (.str s) =
      ⟨.ok (.dict [("error", .str "Invalid JSON format.")]), []⟩ ∧
    get_timezone_info jl api_key net (.str s) =
      ⟨.ok (.dict [("error", .str "Invalid JSON format.")]), []⟩ ∧
    get_astronomy_info jl api_key net (.str s) =
      ⟨.ok (.dict [("error", .str "Invalid JSON format.")]), []⟩ := by
  have hp : parse_input jl (PyVal.str s) = .dict [("error", .str "Invalid JSON format.")] := by
    simp [parse_input, h]
  refine ⟨?_, ?_, ?_, ?_, ?_, ?_⟩ <;>
    simp [get_current_weather, get_forecast_weather, get_historical_weather,
      get_marine_weather, get_timezone_info, get_astronomy_info, hp,
      pyContains, dictContainsL]

/-- Witness for C5 at the undecodable input "not json". -/
theorem C5_witness :
    (fun _ => Option.none : String → Option PyVal) "not json" = Option.none ∧
    get_current_weather (fun _ => Option.none) "k" (fun _ => Option.none) (.str "not json") =
      ⟨.ok (.dict [("error", .str "Invalid JSON format.")]), []⟩ :=
  ⟨rfl, (C5_malformed_payload (fun _ => Option.none) "k" (fun _ => Option.none)
    "not json" rfl).1⟩

/-- Claim C10: failure is signalled by the `error` key, and the check
runs on the normalized input itself: a caller-supplied dict that
already contains an `error` key is returned unchanged by every tool
function, with zero network calls. -/
theorem C10_error_key_passthrough (jl : String → Option PyVal) (api_key : String)
    (net : Nat → Option PyVal) (es : List (String × PyVal))
    (h : dictContainsL es "error" = true) :
    get_current_weather jl api_key net (.dict es) = ⟨.ok (.dict es), []⟩ ∧
    get_forecast_weather jl api_key net (.dict es) = ⟨.ok (.dict es), []⟩ ∧
    get_historical_weather jl api_key net (.dict es) = ⟨.ok (.dict es), []⟩ ∧
    get_marine_weather jl api_key net (.dict es) = ⟨.ok (.dict es), []⟩ ∧
    get_timezone_info jl api_key net (.dict es) = ⟨.ok (.dict es), []⟩ ∧
    get_astronomy_info jl api_key net (.dict es) = ⟨.ok (.dict es), []⟩ := by
  have hp : parse_input jl (PyVal.dict es) = .dict es := rfl
  refine ⟨?_, ?_, ?_, ?_, ?_, ?_⟩ <;>
    simp [get_current_weather, get_forecast_weather, get_historical_weather,
      get_marine_weather, get_timezone_info, get_astronomy_info, hp,
      pyContains, h]

/-- Witness for C10 at a dict whose `error` entry was supplied by the
caller. -/
theorem C10_witness :
    dictContainsL [("error", PyVal.str "boom")] "error" = true ∧
    get_current_weather (fun _ => Option.none) "k" (fun _ => Option.none)
      (.dict [("error", PyVal.str "boom")]) =
      ⟨.ok (.dict [("error", PyVal.str "boom")]), []⟩ :=
  ⟨rfl, (C10_error_key_passthrough (fun _ => Option.none) "k" (fun _ => Option.none)
    [("error", PyVal.str "boom")] rfl).1⟩

/-- Claim C6: dispatching a capability name absent from the registry
returns the unknown-capability failure, for every JSON decoder and
every network oracle — so neither the normalizer nor the fetcher is
consulted and no request is issued. The name lookup itself is
modelled from the spec (see `invoke`). -/
theorem C6_unknown_capability (jl : String → Option PyVal) (api_key : String)
    (net : Nat → Option PyVal) :
    invoke jl api_key net "unknown_tool" (.dict []) = .unknownCapability := by
  rfl

/-- Claim C7: a forecast invocation whose input contains latitude and
longitude issues its fetch with `days = 3` when the input omits
`days`, and with the given value when present; the call always issues
at least one request. -/
theorem C7_forecast_days_default (jl : String → Option PyVal) (api_key : String)
    (net : Nat → Option PyVal) (es : List (String × PyVal)) (lat lon : PyVal)
    (herr : dictContainsL es "error" = false)
    (hlat : dictGetL es "latitude" = some lat)
    (hlon : dictGetL es "longitude" = some lon) :
    (get_forecast_weather jl api_key net (.dict es)).requests ≠ [] ∧
    (dictGetL es "days" = Option.none →
      (get_forecast_weather jl api_key net (.dict es)).requests =
        List.replicate (get_forecast_weather jl api_key net (.dict es)).requests.length
          ⟨"https://api.weatherapi.com/v1/forecast.json",
           [("q", .str (pyStr lat ++ "," ++ pyStr lon)), ("days", .int 3), ("key", .str api_key)]⟩) ∧
    (∀ dv, dictGetL es "days" = some dv →
      (get_forecast_weather jl api_key net (.dict es)).requests =
        List.replicate (get_forecast_weather jl api_key net (.dict es)).requests.length
          ⟨"https://api.weatherapi.com/v1/forecast.json",
           [("q", .str (pyStr lat ++ "," ++ pyStr lon)), ("days", dv), ("key", .str api_key)]⟩) := by
  have hred := get_forecast_weather_red jl api_key net es lat lon herr hlat hlon
  refine ⟨?_, ?_, ?_⟩
  · rw [hred]
    exact fetch_data_requests_ne_nil api_key net "forecast" _
  · intro hnone
    have hd : dictGetDL es "days" (PyVal.int 3) = PyVal.int 3 := by
      simp [dictGetDL, hnone]
    rw [hred, hd]
    exact (fetch_data_requests_replicate api_key net "forecast" _ _ rfl).1
  · intro dv hdv
    have hd : dictGetDL es "days" (PyVal.int 3) = dv := by
      simp [dictGetDL, hdv]
    rw [hred, hd]
    exact (fetch_data_requests_replicate api_key net "forecast" _ _ rfl).1

/-- Witness for C7 at a dict with latitude and longitude and no
`days` entry. -/
theorem C7_witness :
    dictGetL [("latitude", PyVal.str "48.85"), ("longitude", PyVal.str "2.35")] "days" =
      Option.none ∧
    (get_forecast_weather (fun _ => Option.none) "k" (fun _ => Option.none)
        (.dict [("latitude", PyVal.str "48.85"), ("longitude", PyVal.str "2.35")])).requests =
      List.replicate
        (get_forecast_weather (fun _ => Option.none) "k" (fun _ => Option.none)
          (.dict [("latitude", PyVal.str "48.85"), ("longitude", PyVal.str "2.35")])).requests.length
        ⟨"https://api.weatherapi.com/v1/forecast.json",
         [("q", .str (pyStr (PyVal.str "48.85") ++ "," ++ pyStr (PyVal.str "2.35"))),
          ("days", .int 3), ("key", .str "k")]⟩ :=
  ⟨rfl,
   (C7_forecast_days_default (fun _ => Option.none) "k" (fun _ => Option.none)
     [("latitude", PyVal.str "48.85"), ("longitude", PyVal.str "2.35")]
     (PyVal.str "48.85") (PyVal.str "2.35") rfl rfl rfl).2.1 rfl⟩

/-- Claim C8: every weather-family invocation with string latitude
`lat` and longitude `lon` issues its GET against the base URL plus
`/{endpoint}.json` with query parameters exactly `key` (the API key)
and `q = "lat,lon"`, plus `days` for forecast only and `dt` (the
given date) for history and astronomy only; each group states that at
least one request is issued and that every issued request has exactly
that shape. -/
theorem C8_request_shape (jl : String → Option PyVal) (api_key : String)
    (net : Nat → Option PyVal) (es : List (String × PyVal)) (lat lon : String) (dt : PyVal)
    (herr : dictContainsL es "error" = false)
    (hlat : dictGetL es "latitude" = some (.str lat))
    (hlon : dictGetL es "longitude" = some (.str lon))
    (hdate : dictGetL es "date" = some dt) :
    ((get_current_weather jl api_key net (.dict es)).requests ≠ [] ∧
     (get_current_weather jl api_key net (.dict es)).requests =
       List.replicate (get_current_weather jl api_key net (.dict es)).requests.length
         ⟨"https://api.weatherapi.com/v1/current.json",
          [("q", .str (lat ++ "," ++ lon)), ("key", .str api_key)]⟩) ∧
    ((get_forecast_weather jl api_key net (.dict es)).requests ≠ [] ∧
     (get_forecast_weather jl api_key net (.dict es)).requests =
       List.replicate (get_forecast_weather jl api_key net (.dict es)).requests.length
         ⟨"https://api.weatherapi.com/v1/forecast.json",
          [("q", .str (lat ++ "," ++ lon)), ("days", dictGetDL es "days" (.int 3)),
           ("key", .str api_key)]⟩) ∧
    ((get_historical_weather jl api_key net (.dict es)).requests ≠ [] ∧
     (get_historical_weather jl api_key net (.dict es)).requests =
       List.replicate (get_historical_weather jl api_key net (.dict es)).requests.length
         ⟨"https://api.weatherapi.com/v1/history.json",
          [("q", .str (lat ++ "," ++ lon)), ("dt", dt), ("key", .str api_key)]⟩) ∧
    ((get_marine_weather jl api_key net (.dict es)).requests ≠ [] ∧
     (get_marine_weather jl api_key net (.dict es)).requests =
       List.replicate (get_marine_weather jl api_key net (.dict es)).requests.length
         ⟨"https://api.weatherapi.com/v1/marine.json",
          [("q", .str (lat ++ "," ++ lon)), ("key", .str api_key)]⟩) ∧
    ((get_timezone_info jl api_key net (.dict es)).requests ≠ [] ∧
     (get_timezone_info jl api_key net (.dict es)).requests =
       List.replicate (get_timezone_info jl api_key net (.dict es)).requests.length
         ⟨"https://api.weatherapi.com/v1/timezone.json",
          [("q", .str (lat ++ "," ++ lon)), ("key", .str api_key)]⟩) ∧
    ((get_astronomy_info jl api_key net (.dict es)).requests ≠ [] ∧
     (get_astronomy_info jl api_key net (.dict es)).requests =
       List.replicate (get_astronomy_info jl api_key net (.dict es)).requests.length
         ⟨"https://api.weatherapi.com/v1/astronomy.json",
          [("q", .str (lat ++ "," ++ lon)), ("dt", dt), ("key", .str api_key)]⟩) := by
  have h1 := get_current_weather_red jl api_key net es _ _ herr hlat hlon
  have h2 := get_forecast_weather_red jl api_key net es _ _ herr hlat hlon
  have h3 := get_historical_weather_red jl api_key net es _ _ dt herr hlat hlon hdate
  have h4 := get_marine_weather_red jl api_key net es _ _ herr hlat hlon
  have h5 := get_timezone_info_red jl api_key net es _ _ herr hlat hlon
  have h6 := get_astronomy_info_red jl api_key net es _ _ dt herr hlat hlon hdate
  refine ⟨⟨?_, ?_⟩, ⟨?_, ?_⟩, ⟨?_, ?_⟩, ⟨?_, ?_⟩, ⟨?_, ?_⟩, ⟨?_, ?_⟩⟩ <;>
    first
    | (rw [h1]; exact fetch_data_requests_ne_nil api_key net "current" _)
    | (rw [h1]; exact (fetch_data_requests_replicate api_key net "current" _ _ rfl).1)
    | (rw [h2]; exact fetch_data_requests_ne_nil api_key net "forecast" _)
    | (rw [h2]; exact (fetch_data_requests_replicate api_key net "forecast" _ _ rfl).1)
    | (rw [h3]; exact fetch_data_requests_ne_nil api_key net "history" _)
    | (rw [h3]; exact (fetch_data_requests_replicate api_key net "history" _ _ rfl).1)
    | (rw [h4]; exact fetch_data_requests_ne_nil api_key net "marine" _)
    | (rw [h4]; exact (fetch_data_requests_replicate api_key net "marine" _ _ rfl).1)
    | (rw [h5]; exact fetch_data_requests_ne_nil api_key net "timezone" _)
    | (rw [h5]; exact (fetch_data_requests_replicate api_key net "timezone" _ _ rfl).1)
    | (rw [h6]; exact fetch_data_requests_ne_nil api_key net "astronomy" _)
    | (rw [h6]; exact (fetch_data_requests_replicate api_key net "astronomy" _ _ rfl).1)

/-- Witness for C8 at a concrete mapping with latitude 23.5,
longitude -45.3 and a date. -/
theorem C8_witness :
    (get_current_weather (fun _ => Option.none) "k" (fun _ => Option.none)
        (.dict [("latitude", PyVal.str "23.5"), ("longitude", PyVal.str "-45.3"),
                ("date", PyVal.str "2023-01-01")])).requests ≠ [] ∧
    (get_current_weather (fun _ => Option.none) "k" (fun _ => Option.none)
        (.dict [("latitude", PyVal.str "23.5"), ("longitude", PyVal.str "-45.3"),
                ("date", PyVal.str "2023-01-01")])).requests =
      List.replicate
        (get_current_weather (fun _ => Option.none) "k" (fun _ => Option.none)
          (.dict [("latitude", PyVal.str "23.5"), ("longitude", PyVal.str "-45.3"),
                  ("date", PyVal.str "2023-01-01")])).requests.length
        ⟨"https://api.weatherapi.com/v1/current.json",
         [("q", .str ("23.5" ++ "," ++ "-45.3")), ("key", .str "k")]⟩ :=
  (C8_request_shape (fun _ => Option.none) "k" (fun _ => Option.none)
    [("latitude", PyVal.str "23.5"), ("longitude", PyVal.str "-45.3"),
     ("date", PyVal.str "2023-01-01")]
    "23.5" "-45.3" (PyVal.str "2023-01-01") rfl rfl rfl rfl).1

/-- Claim C1 counterexample: a weather invocation whose mapping lacks
`longitude` does not return a structured MissingField error object —
the call raises an uncaught `KeyError("longitude")`. -/
theorem C1_counterexample :
    (get_current_weather (fun _ => Option.none) "k" (fun _ => Option.none)
      (.dict [("latitude", PyVal.str "23.5")])).result = PyResult.exn "longitude" := by
  rfl

/-- Claim C1 as amended: only the `date` required parameter is
validated. A history/astronomy invocation whose normalized mapping
lacks `date` returns the structured error dict naming the date field,
with zero network calls; a mapping lacking `latitude` (or containing
`latitude` but lacking `longitude`) makes every weather tool raise an
uncaught KeyError naming that parameter, also with zero network
calls, instead of returning a MissingField error object. -/
theorem C1_missing_required_param (jl : String → Option PyVal) (api_key : String)
    (net : Nat → Option PyVal) (es1 es2 es3 : List (String × PyVal)) (lat3 : PyVal)
    (h1err : dictContainsL es1 "error" = false)
    (h1date : dictContainsL es1 "date" = false)
    (h2err : dictContainsL es2 "error" = false)
    (h2lat : dictGetL es2 "latitude" = Option.none)
    (h3err : dictContainsL es3 "error" = false)
    (h3lat : dictGetL es3 "latitude" = some lat3)
    (h3lon : dictGetL es3 "longitude" = Option.none) :
    get_historical_weather jl api_key net (.dict es1) =
      ⟨.ok (.dict [("error", .str "Missing \x27date\x27 field.")]), []⟩ ∧
    get_astronomy_info jl api_key net (.dict es1) =
      ⟨.ok (.dict [("error", .str "Missing \x27date\x27 field.")]), []⟩ ∧
    get_current_weather jl api_key net (.dict es2) = ⟨.exn "latitude", []⟩ ∧
    get_forecast_weather jl api_key net (.dict es2) = ⟨.exn "latitude", []⟩ ∧
    get_marine_weather jl api_key net (.dict es2) = ⟨.exn "latitude", []⟩ ∧
    get_timezone_info jl api_key net (.dict es2) = ⟨.exn "latitude", []⟩ ∧
    get_current_weather jl api_key net (.dict es3) = ⟨.exn "longitude", []⟩ ∧
    get_forecast_weather jl api_key net (.dict es3) = ⟨.exn "longitude", []⟩ ∧
    get_marine_weather jl api_key net (.dict es3) = ⟨.exn "longitude", []⟩ ∧
    get_timezone_info jl api_key net (.dict es3) = ⟨.exn "longitude", []⟩ := by
  refine ⟨?_, ?_, ?_, ?_, ?_, ?_, ?_, ?_, ?_, ?_⟩ <;>
    simp [get_historical_weather, get_astronomy_info, get_current_weather,
      get_forecast_weather, get_marine_weather, get_timezone_info,
      parse_input, isDict, pyContains, pyGet,
      h1err, h1date, h2err, h2lat, h3err, h3lat, h3lon]

/-- Witness for C1 (amended) at the spec's own examples: astronomy at
(34.05, -118.25) with no date returns the missing-date error dict, and
current weather at latitude 23.5 with no longitude raises
`KeyError("longitude")`. -/
theorem C1_witness :
    get_astronomy_info (fun _ => Option.none) "k" (fun _ => Option.none)
      (.dict [("latitude", PyVal.str "34.05"), ("longitude", PyVal.str "-118.25")]) =
      ⟨.ok (.dict [("error", .str "Missing \x27date\x27 field.")]), []⟩ ∧
    get_current_weather (fun _ => Option.none) "k" (fun _ => Option.none)
      (.dict [("latitude", PyVal.str "23.5")]) = ⟨.exn "longitude", []⟩ :=
  ⟨(C1_missing_required_param (fun _ => Option.none) "k" (fun _ => Option.none)
      [("latitude", PyVal.str "34.05"), ("longitude", PyVal.str "-118.25")]
      [("longitude", PyVal.str "-45.3")] [("latitude", PyVal.str "23.5")]
      (PyVal.str "23.5") rfl rfl rfl rfl rfl rfl rfl).2.1,
   (C1_missing_required_param (fun _ => Option.none) "k" (fun _ => Option.none)
      [("latitude", PyVal.str "34.05"), ("longitude", PyVal.str "-118.25")]
      [("longitude", PyVal.str "-45.3")] [("latitude", PyVal.str "23.5")]
      (PyVal.str "23.5") rfl rfl rfl rfl rfl rfl rfl).2.2.2.2.2.2.1⟩

/-- Claim C2 counterexample: invoking the current-weather tool with a
mapping lacking `latitude` lets an uncaught `KeyError("latitude")`
cross the core boundary instead of returning a structured result. -/
theorem C2_counterexample :
    (get_current_weather (fun _ => Option.none) "k" (fun _ => Option.none)
      (.dict [("longitude", PyVal.str "-45.3")])).result = PyResult.exn "latitude" := by
  rfl

/-- Claim C2 as amended: every tool invocation on any raw input either
returns a structured result value, or raises an uncaught KeyError,
and the only possible such exceptions are `KeyError("latitude")` and
`KeyError("longitude")`; parse failures, wrong-shaped inputs and
missing dates always come back as structured error values. -/
theorem C2_structured_result_or_latlon_keyerror (jl : String → Option PyVal)
    (api_key : String) (net : Nat → Option PyVal) (input : PyVal) :
    ((∃ v, (get_current_weather jl api_key net input).result = .ok v) ∨
      (get_current_weather jl api_key net input).result = .exn "latitude" ∨
      (get_current_weather jl api_key net input).result = .exn "longitude") ∧
    ((∃ v, (get_forecast_weather jl api_key net input).result = .ok v) ∨
      (get_forecast_weather jl api_key net input).result = .exn "latitude" ∨
      (get_forecast_weather jl api_key net input).result = .exn "longitude") ∧
    ((∃ v, (get_historical_weather jl api_key net input).result = .ok v) ∨
      (get_historical_weather jl api_key net input).result = .exn "latitude" ∨
      (get_historical_weather jl api_key net input).result = .exn "longitude") ∧
    ((∃ v, (get_marine_weather jl api_key net input).result = .ok v) ∨
      (get_marine_weather jl api_key net input).result = .exn "latitude" ∨
      (get_marine_weather jl api_key net input).result = .exn "longitude") ∧
    ((∃ v, (get_timezone_info jl api_key net input).result = .ok v) ∨
      (get_timezone_info jl api_key net input).result = .exn "latitude" ∨
      (get_timezone_info jl api_key net input).result = .exn "longitude") ∧
    ((∃ v, (get_astronomy_info jl api_key net input).result = .ok v) ∨
      (get_astronomy_info jl api_key net input).result = .exn "latitude" ∨
      (get_astronomy_info jl api_key net input).result = .exn "longitude") := by
  refine ⟨?_, ?_, ?_, ?_, ?_, ?_⟩
  · rcases hc : pyContains (parse_input jl input) "error" with _ | _
    · rcases hlat : pyGet (parse_input jl input) "latitude" with _ | lat
      · exact Or.inr (Or.inl (by simp [get_current_weather, hc, hlat]))
      · rcases hlon : pyGet (parse_input jl input) "longitude" with _ | lon
        · exact Or.inr (Or.inr (by simp [get_current_weather, hc, hlat, hlon]))
        · exact Or.inl ⟨(WeatherAPI.get_weather api_key net lat lon).result,
            by simp [get_current_weather, hc, hlat, hlon]⟩
    · exact Or.inl ⟨parse_input jl input, by simp [get_current_weather, hc]⟩
  · rcases hc : pyContains (parse_input jl input) "error" with _ | _
    · rcases hlat : pyGet (parse_input jl input) "latitude" with _ | lat
      · exact Or.inr (Or.inl (by simp [get_forecast_weather, hc, hlat]))
      · rcases hlon : pyGet (parse_input jl input) "longitude" with _ | lon
        · exact Or.inr (Or.inr (by simp [get_forecast_weather, hc, hlat, hlon]))
        · exact Or.inl ⟨(WeatherAPI.get_forecast api_key net lat lon
              (pyGetD (parse_input jl input) "days" (.int 3))).result,
            by simp [get_forecast_weather, hc, hlat, hlon]⟩
    · exact Or.inl ⟨parse_input jl input, by simp [get_forecast_weather, hc]⟩
  · rcases hc : pyContains (parse_input jl input) "error" with _ | _
    · rcases hd : pyContains (parse_input jl input) "date" with _ | _
      · exact Or.inl ⟨.dict [("error", .str "Missing \x27date\x27 field.")],
          by simp [get_historical_weather, hc, hd]⟩
      · obtain ⟨dv, hdv⟩ := pyContains_pyGet _ _ hd
        rcases hlat : pyGet (parse_input jl input) "latitude" with _ | lat
        · exact Or.inr (Or.inl (by simp [get_historical_weather, hc, hd, hlat]))
        · rcases hlon : pyGet (parse_input jl input) "longitude" with _ | lon
          · exact Or.inr (Or.inr (by simp [get_historical_weather, hc, hd, hlat, hlon]))
          · exact Or.inl ⟨(WeatherAPI.get_history api_key net lat lon dv).result,
              by simp [get_historical_weather, hc, hd, hlat, hlon, hdv]⟩
    · exact Or.inl ⟨parse_input jl input, by simp [get_historical_weather, hc]⟩
  · rcases hc : pyContains (parse_input jl input) "error" with _ | _
    · rcases hlat : pyGet (parse_input jl input) "latitude" with _ | lat
      · exact Or.inr (Or.inl (by simp [get_marine_weather, hc, hlat]))
      · rcases hlon : pyGet (parse_input jl input) "longitude" with _ | lon
        · exact Or.inr (Or.inr (by simp [get_marine_weather, hc, hlat, hlon]))
        · exact Or.inl ⟨(WeatherAPI.get_marine api_key net lat lon).result,
            by simp [get_marine_weather, hc, hlat, hlon]⟩
    · exact Or.inl ⟨parse_input jl input, by simp [get_marine_weather, hc]⟩
  · rcases hc : pyContains (parse_input jl input) "error" with _ | _
    · rcases hlat : pyGet (parse_input jl input) "latitude" with _ | lat
      · exact Or.inr (Or.inl (by simp [get_timezone_info, hc, hlat]))
      · rcases hlon : pyGet (parse_input jl input) "longitude" with _ | lon
        · exact Or.inr (Or.inr (by simp [get_timezone_info, hc, hlat, hlon]))
        · exact Or.inl ⟨(WeatherAPI.get_timezone api_key net lat lon).result,
            by simp [get_timezone_info, hc, hlat, hlon]⟩
    · exact Or.inl ⟨parse_input jl input, by simp [get_timezone_info, hc]⟩
  · rcases hc : pyContains (parse_input jl input) "error" with _ | _
    · rcases hd : pyContains (parse_input jl input) "date" with _ | _
      · exact Or.inl ⟨.dict [("error", .str "Missing \x27date\x27 field.")],
          by simp [get_astronomy_info, hc, hd]⟩
      · obtain ⟨dv, hdv⟩ := pyContains_pyGet _ _ hd
        rcases hlat : pyGet (parse_input jl input) "latitude" with _ | lat
        · exact Or.inr (Or.inl (by simp [get_astronomy_info, hc, hd, hlat]))
        · rcases hlon : pyGet (parse_input jl input) "longitude" with _ | lon
          · exact Or.inr (Or.inr (by simp [get_astronomy_info, hc, hd, hlat, hlon]))
          · exact Or.inl ⟨(WeatherAPI.get_astronomy api_key net lat lon dv).result,
              by simp [get_astronomy_info, hc, hd, hlat, hlon, hdv]⟩
    · exact Or.inl ⟨parse_input jl input, by simp [get_astronomy_info, hc]⟩

end SpaceAce
